import Mathlib

/-!
Verification of the daisyschain firmware core against its specification.

The Python sources are shallowly embedded:
* Python `str` values are lists of Unicode code points (`List Nat`);
  `bytes`/`bytearray` values are lists of byte values (`List Nat`, each < 256).
* A Python function that may raise is embedded as a function into
  `Except PyErr _`; an `Except.error e` result means the Python code raises
  the exception `e` to its caller (uncaught at that boundary).  A
  `try/except` block in the source is translated by matching on the
  `Except` result of the protected code.
* Monotonic millisecond ticks (`utime.ticks_ms`) are natural numbers, and
  `utime.ticks_diff` is the wrap-aware signed difference used by MicroPython.
-/

namespace Daisyschain

/-- Python exception values raised by the modelled code paths. -/
inductive PyErr where
  | zeroDivisionError
  | unicodeDecodeError
  | osError
  | valueError
  | keyError
  | typeError
  | attributeError
  | other
  deriving DecidableEq, Repr

/-! ### UTF-8 codec

`str.encode('utf-8')` and `bytes.decode('utf-8')` from the source are modelled
by a standard UTF-8 encoder/decoder over code points.  The encoder is total on
code points below `0x110000` excluding surrogates (Python raises on lone
surrogates; no claim here exercises that corner).  The decoder rejects
continuation-byte leads, overlong forms, surrogates and out-of-range leads,
exactly as CPython's strict `decode('utf-8')` does. -/

/-- UTF-8 encoding of a single code point. -/
def utf8EncodeChar (c : Nat) : List Nat :=
  if c < 0x80 then [c]
  else if c < 0x800 then [0xC0 + c / 0x40, 0x80 + c % 0x40]
  else if c < 0x10000 then
    [0xE0 + c / 0x1000, 0x80 + c / 0x40 % 0x40, 0x80 + c % 0x40]
  else
    [0xF0 + c / 0x40000, 0x80 + c / 0x1000 % 0x40, 0x80 + c / 0x40 % 0x40,
      0x80 + c % 0x40]

/-- UTF-8 encoding of a string (list of code points). -/
def utf8Encode : List Nat → List Nat
  | [] => []
  | c :: rest => utf8EncodeChar c ++ utf8Encode rest

/-- Decoder state: either expecting a lead byte, or expecting `remaining`
continuation bytes with accumulator `acc`, where the next byte must lie in
`[lo, hi)`.  The `lo`/`hi` bounds on the first continuation byte encode the
overlong-form and surrogate restrictions of strict UTF-8. -/
inductive DecSt where
  | base
  | need (remaining acc lo hi : Nat)
  deriving DecidableEq, Repr

/-- Consume one byte in the given decoder state: `none` on an invalid byte,
otherwise the next state together with the code point completed by this
byte, if any. -/
def utf8Step (st : DecSt) (b : Nat) : Option (DecSt × Option Nat) :=
  match st with
  | .base =>
    if b < 0x80 then some (.base, some b)
    else if b < 0xC2 then none
    else if b < 0xE0 then some (.need 1 (b - 0xC0) 0x80 0xC0, none)
    else if b < 0xF0 then
      some (.need 2 (b - 0xE0)
        (if b = 0xE0 then 0xA0 else 0x80) (if b = 0xED then 0xA0 else 0xC0), none)
    else if b < 0xF5 then
      some (.need 3 (b - 0xF0)
        (if b = 0xF0 then 0x90 else 0x80) (if b = 0xF4 then 0x90 else 0xC0), none)
    else none
  | .need remaining acc lo hi =>
    if lo ≤ b ∧ b < hi then
      if remaining ≤ 1 then some (.base, some (acc * 0x40 + (b - 0x80)))
      else some (.need (remaining - 1) (acc * 0x40 + (b - 0x80)) 0x80 0xC0, none)
    else none

/-- Run the decoder over the byte list; a dangling incomplete sequence at
the end of input is invalid. -/
def utf8DecodeAux (st : DecSt) : List Nat → Option (List Nat)
  | [] => if st = .base then some [] else none
  | b :: rest =>
    match utf8Step st b with
    | none => none
    | some (st2, none) => utf8DecodeAux st2 rest
    | some (st2, some c) => (utf8DecodeAux st2 rest).map (fun s => c :: s)

/-- Strict UTF-8 decoding of a byte list, `none` on any invalid sequence
(CPython raises `UnicodeDecodeError` there). -/
def utf8Decode (l : List Nat) : Option (List Nat) :=
  utf8DecodeAux .base l

/-! ### `misc/thistothat.py`: XOR obfuscation and message framing -/

deriving instance DecidableEq for Except

/-- The `for i in range(len(string_bytes))` loop body of
`xor_encrypt_decrypt`: XOR each byte with the key byte at the loop index
modulo the key length.  `i` is the loop counter, `kb` the key bytes. -/
def xorLoop (kb : List Nat) : Nat → List Nat → List Nat
  | _, [] => []
  | i, b :: rest => (b ^^^ kb.getD (i % kb.length) 0) :: xorLoop kb (i + 1) rest

/-- `xor_encrypt_decrypt(string, key)`: encode both arguments as UTF-8 and
XOR byte-wise, cycling through the key with `i % len(key_bytes)`.  When the
string encodes to at least one byte and the key encodes to zero bytes,
`i % 0` raises `ZeroDivisionError` on the first iteration; with zero string
bytes the loop body never runs and an empty result is returned. -/
def xor_encrypt_decrypt (s key : List Nat) : Except PyErr (List Nat) :=
  if (utf8Encode s).length = 0 then .ok []
  else if (utf8Encode key).length = 0 then .error .zeroDivisionError
  else .ok (xorLoop (utf8Encode key) 0 (utf8Encode s))

/-- `message_pack(string, secret)`: strip space characters
(`string.replace(' ', '')`) and XOR-obfuscate with the secret.  The
function body has no `try`/`except`, so any error from
`xor_encrypt_decrypt` propagates to the caller. -/
def message_pack (s secret : List Nat) : Except PyErr (List Nat) :=
  xor_encrypt_decrypt (s.filter (fun c => c != 32)) secret

/-- `message_unpack(string, secret)`: decode the received bytes as UTF-8 and
XOR with the secret; every exception inside the `try` block (decode
failure, empty secret, ...) is caught and the function returns `None`. -/
def message_unpack (c secret : List Nat) : Option (List Nat) :=
  match utf8Decode c with
  | none => none
  | some s =>
    match xor_encrypt_decrypt s secret with
    | .error _ => none
    | .ok out => some out

/-! ### Codec lemmas -/

lemma utf8EncodeChar_ascii {c : Nat} (h : c < 128) : utf8EncodeChar c = [c] := by
  simp [utf8EncodeChar, h]

lemma utf8EncodeChar_ne_nil (c : Nat) : utf8EncodeChar c ≠ [] := by
  unfold utf8EncodeChar
  repeat' split
  all_goals simp

lemma utf8Encode_ascii {s : List Nat} (h : ∀ c ∈ s, c < 128) : utf8Encode s = s := by
  induction s with
  | nil => rfl
  | cons c rest ih =>
    rw [utf8Encode, utf8EncodeChar_ascii (h c (by simp)),
      ih (fun x hx => h x (by simp [hx]))]
    rfl

lemma utf8Encode_eq_nil_iff {s : List Nat} : utf8Encode s = [] ↔ s = [] := by
  cases s with
  | nil => simp [utf8Encode]
  | cons c rest =>
    simp only [utf8Encode, List.append_eq_nil]
    simp [utf8EncodeChar_ne_nil]

lemma utf8Decode_ascii {l : List Nat} (h : ∀ b ∈ l, b < 128) : utf8Decode l = some l := by
  unfold utf8Decode
  induction l with
  | nil => rfl
  | cons b rest ih =>
    have hb : b < 128 := h b (by simp)
    simp [utf8DecodeAux, utf8Step, hb, ih (fun x hx => h x (List.mem_cons_of_mem _ hx))]

lemma xorLoop_length (kb : List Nat) : ∀ i l, (xorLoop kb i l).length = l.length := by
  intro i l
  induction l generalizing i with
  | nil => rfl
  | cons b rest ih => simp [xorLoop, ih]

lemma xorLoop_lt {kb : List Nat} (hkb : ∀ b ∈ kb, b < 128) :
    ∀ (i : Nat) {l : List Nat}, (∀ b ∈ l, b < 128) → ∀ b ∈ xorLoop kb i l, b < 128 := by
  intro i l hl
  induction l generalizing i with
  | nil => intro b hb; simp [xorLoop] at hb
  | cons a rest ih =>
    intro b hb
    have hkey : kb.getD (i % kb.length) 0 < 128 := by
      by_cases hj : i % kb.length < kb.length
      · rw [List.getD_eq_getElem _ _ hj]
        exact hkb _ (List.getElem_mem hj)
      · rw [List.getD_eq_default _ _ (Nat.le_of_not_lt hj)]
        norm_num
    rcases (by simpa [xorLoop] using hb : b = a ^^^ kb.getD (i % kb.length) 0 ∨
        b ∈ xorLoop kb (i + 1) rest) with h | h
    · subst h
      have ha : a < 2 ^ 7 := hl a (by simp)
      exact Nat.xor_lt_two_pow ha hkey
    · exact ih (i + 1) (fun x hx => hl x (List.mem_cons_of_mem _ hx)) b h

lemma xorLoop_xorLoop (kb : List Nat) : ∀ i l, xorLoop kb i (xorLoop kb i l) = l := by
  intro i l
  induction l generalizing i with
  | nil => rfl
  | cons b rest ih => simp [xorLoop, Nat.xor_cancel_right, ih]

/-! ### Claim C1 -/

/-- C1 (counterexample): the round trip fails as universally stated.  With
payload `m = "a"` (code point 97, non-empty, no whitespace) and secret
`k = "á"` (code point 225, non-empty), `message_pack` produces the single
byte `162 = 97 XOR 0xC3`, which is not valid UTF-8, so `message_unpack`'s
`decode('utf-8')` raises and the function returns `None` instead of the
payload. -/
theorem C1_roundtrip_counterexample :
    ([225] : List Nat) ≠ [] ∧ (∀ c ∈ [(97 : Nat)], c ≠ 32) ∧
      (message_pack [97] [225]).map (fun c => message_unpack c [225])
        = .ok none := by decide

/-- C1 (amended): for payloads and secrets whose code points are all ASCII
(`< 128`), a non-empty secret, and a payload containing no space
characters, `message_unpack` applied to `message_pack`'s output under the
same secret returns the byte content of the original payload (for ASCII
text, its UTF-8 bytes coincide with its code points; the Python values
differ only in type, `bytearray` versus `str`). -/
theorem C1_roundtrip_ascii (m k : List Nat)
    (hm : ∀ c ∈ m, c < 128) (hk : ∀ c ∈ k, c < 128)
    (hknz : k ≠ []) (hsp : ∀ c ∈ m, c ≠ 32) :
    (message_pack m k).map (fun c => message_unpack c k) = .ok (some m) := by
  have hfilter : m.filter (fun c => c != 32) = m :=
    List.filter_eq_self.mpr (fun a ha => by simpa using hsp a ha)
  have hem : utf8Encode m = m := utf8Encode_ascii hm
  have hek : utf8Encode k = k := utf8Encode_ascii hk
  rw [message_pack, hfilter]
  rcases List.eq_nil_or_concat m with hm0 | ⟨_, _, hm0⟩
  · subst hm0
    simp [xor_encrypt_decrypt, message_unpack, utf8Decode, utf8DecodeAux,
      utf8Encode, Except.map]
  · have hmnz : m ≠ [] := by simp [hm0]
    have hcbytes : ∀ b ∈ xorLoop k 0 m, b < 128 := xorLoop_lt hk 0 hm
    have hclen : (xorLoop k 0 m).length = m.length := xorLoop_length k 0 m
    have hcnz : xorLoop k 0 m ≠ [] := by
      intro hc
      apply hmnz
      rw [← List.length_eq_zero, ← hclen, hc]
      rfl
    simp [xor_encrypt_decrypt, message_unpack, Except.map,
      utf8Decode_ascii hcbytes, utf8Encode_ascii hcbytes, hem, hek,
      List.length_eq_zero, hmnz, hknz, hcnz, xorLoop_xorLoop]

/-- C1 (witness): the amended round trip at the concrete ASCII payload
`"hi"` (`[104, 105]`) and secret `"k"` (`[107]`). -/
theorem C1_roundtrip_ascii_witness :
    (message_pack [104, 105] [107]).map (fun c => message_unpack c [107])
      = .ok (some [104, 105]) :=
  C1_roundtrip_ascii [104, 105] [107] (by decide) (by decide) (by decide) (by decide)

/-! ### Claim C6 -/

/-- C6 (counterexample): with the empty secret, `message_pack` of the
payload `"a"` does not return an error value: `xor_encrypt_decrypt`
raises `ZeroDivisionError` at `i % len(key_bytes)` and `message_pack`
contains no `try`/`except`, so the exception propagates to
`message_pack`'s caller (`.error` here models exactly that uncaught
propagation). -/
theorem C6_empty_secret_counterexample :
    message_pack [97] [] = .error .zeroDivisionError := by decide

/-- C6 (amended): with the empty secret, `message_pack` raises
`ZeroDivisionError` to its caller whenever the space-stripped payload is
non-empty; when the payload strips to nothing the XOR loop body never runs
and empty bytes are returned.  It never returns an error value. -/
theorem C6_empty_secret (m : List Nat) :
    message_pack m [] =
      if m.filter (fun c => c != 32) = [] then .ok []
      else .error .zeroDivisionError := by
  rw [message_pack, xor_encrypt_decrypt]
  by_cases hf : m.filter (fun c => c != 32) = []
  · simp [hf, utf8Encode]
  · have h1 : (utf8Encode (m.filter (fun c => c != 32))).length ≠ 0 := by
      simpa [List.length_eq_zero, utf8Encode_eq_nil_iff] using hf
    simp [hf, h1, utf8Encode]

/-! ### `lora.py`: the radio link send path

`utime.ticks_ms` values are naturals below `TICKS_PERIOD`;
`utime.ticks_diff` is MicroPython's wrap-aware signed difference. -/

def TICKS_PERIOD : Nat := 2 ^ 30

/-- `utime.ticks_diff(a, b)`: signed wrap-aware tick difference, in
`[-TICKS_PERIOD/2, TICKS_PERIOD/2)`. -/
def ticksDiff (a b : Nat) : Int :=
  ((a : Int) - (b : Int) + TICKS_PERIOD / 2) % TICKS_PERIOD - TICKS_PERIOD / 2

/-- The mutable attributes of `LoRaModule` that `send_message` reads or
writes, plus the configuration fixed at construction.  `lora_present`
models `self._lora` being non-`None` (truthy); `secret` is
`self._device.secret` as a list of code points; `rate_limit` is
`self._rate_limit` in seconds. -/
structure LoRaState where
  last_send : Nat
  send_lock : Bool
  lora_present : Bool
  rate_limit : Nat
  secret : List Nat
  deriving DecidableEq, Repr

/-- The external values one `send_message` call observes: the two
`utime.ticks_ms()` reads, the `ujson.dumps(message)` serialization (code
points, with the `id` field already stamped for dict messages), whether
the transceiver call `self._lora.send(...)` raises, and the transceiver's
time-on-air figure returned through `_get_toa` (modelled as a pure
external value). -/
structure SendEnv where
  now : Nat
  serialized : List Nat
  txErr : Option PyErr
  now2 : Nat
  toa : Int
  deriving DecidableEq, Repr

/-- Observable side effects of one `send_message` call, in program order:
the transceiver transmit call, the fire-and-forget LED-pulse task, and the
awaited `lora.tx` bus event. -/
inductive SendAction where
  | transmit (frame : List Nat)
  | ledPulseTask
  | emitLoraTx
  deriving DecidableEq, Repr

/-- `LoRaModule.send_message(message)` as a state transformer: returns the
new module state, the Python return value (`None` = "not sent", or the
time-on-air), and the list of side effects performed.

Source structure: the throttle check returns `None` when less than
`self._rate_limit * 1000` ms of `ticks_diff` have elapsed since
`self._last_send`; then `if self._lora and not self._send_lock` guards the
`try` block, which sets the lock, packs (an exception here is caught by
`except`), transmits (likewise), emits the events, updates
`self._last_send` and returns the time-on-air; the `finally` clause
clears the lock on every path out of the `try`; all other paths return
`None` with the state untouched. -/
def send_message (st : LoRaState) (env : SendEnv) :
    LoRaState × Option Int × List SendAction :=
  if ticksDiff env.now st.last_send < st.rate_limit * 1000 then (st, none, [])
  else if st.lora_present ∧ st.send_lock = false then
    match message_pack env.serialized st.secret with
    | .error _ => ({st with send_lock := false}, none, [])
    | .ok lora_message =>
      match env.txErr with
      | some _ => ({st with send_lock := false}, none, [.transmit lora_message])
      | none =>
        ({st with send_lock := false, last_send := env.now2}, some env.toa,
          [.transmit lora_message, .ledPulseTask, .emitLoraTx])
  else (st, none, [])

/-- `LoRaModule.__init__`: `self._last_send = utime.ticks_ms()` (the
construction tick), `self._send_lock = False`; `self._lora` is the
initialized transceiver or `None` on failure. -/
def LoRaModule_init (now : Nat) (lora_ok : Bool) (rate_limit : Nat)
    (secret : List Nat) : LoRaState :=
  { last_send := now, send_lock := false, lora_present := lora_ok,
    rate_limit := rate_limit, secret := secret }

/-! ### Claims C2, C3, C10 -/

/-- C2: rate limiting of the send path.  (1) A call made less than
`rate_limit * 1000` ms of tick difference after `last_send` returns `None`,
performs no side effect (in particular transmits nothing) and leaves the
state unchanged.  (2) A call made once the interval has elapsed, with the
transceiver present, the lock free, and a transmit that does not raise,
proceeds: it transmits the packed frame, emits the events, updates
`last_send` and returns the time-on-air.  (3) `last_send` is updated only
by a successful send: if a call changed `last_send`, that call returned
the time-on-air (not `None`) and stamped `last_send` with the
post-transmit tick. -/
theorem C2_rate_limiting (st : LoRaState) (env : SendEnv) :
    (ticksDiff env.now st.last_send < st.rate_limit * 1000 →
      send_message st env = (st, none, [])) ∧
    (st.rate_limit * 1000 ≤ ticksDiff env.now st.last_send →
      st.lora_present = true → st.send_lock = false →
      ∀ frame, message_pack env.serialized st.secret = .ok frame →
        env.txErr = none →
        send_message st env =
          ({st with send_lock := false, last_send := env.now2}, some env.toa,
            [.transmit frame, .ledPulseTask, .emitLoraTx])) ∧
    ((send_message st env).1.last_send ≠ st.last_send →
      (send_message st env).2.1 = some env.toa ∧
        (send_message st env).1.last_send = env.now2) := by
  refine ⟨?_, ?_, ?_⟩
  · intro h
    simp [send_message, h]
  · intro h hp hl frame hf ht
    rw [send_message, if_neg (not_lt.mpr h), if_pos ⟨hp, hl⟩, hf, ht]
  · unfold send_message
    repeat' split
    all_goals intro h
    all_goals simp_all

/-- C2 (witness): with `rate_limit = 5` s, a call 1000 ms after the last
send is rejected with no effect; a call 6000 ms after it, with secret
`"k"` and payload `"hi"`, transmits the XOR frame `[3, 2]`, returns the
time-on-air 42 and stamps `last_send`. -/
theorem C2_rate_limiting_witness :
    send_message (LoRaModule_init 1000 true 5 [107])
        { now := 2000, serialized := [104, 105], txErr := none,
          now2 := 2001, toa := 42 }
      = (LoRaModule_init 1000 true 5 [107], none, []) ∧
    send_message (LoRaModule_init 1000 true 5 [107])
        { now := 7000, serialized := [104, 105], txErr := none,
          now2 := 7050, toa := 42 }
      = ({ LoRaModule_init 1000 true 5 [107] with
            send_lock := false, last_send := 7050 }, some 42,
          [.transmit [3, 2], .ledPulseTask, .emitLoraTx]) :=
  ⟨(C2_rate_limiting _ _).1 (by decide),
    (C2_rate_limiting _ _).2.1 (by decide) rfl rfl [3, 2] (by decide) rfl⟩

/-- C3: send mutual exclusion and guaranteed lock release.  (1) While the
send lock is held, any `send_message` call returns `None` with no side
effect and no state change.  (2) Every call leaves the lock exactly as it
found it: in particular a call that acquired the lock (entered with it
free) has released it on every exit path — the normal return, the caught
exception from `message_pack`, and the caught exception from the
transceiver call alike (`finally: self._send_lock = False`). -/
theorem C3_send_lock (st : LoRaState) (env : SendEnv) :
    (st.send_lock = true → send_message st env = (st, none, [])) ∧
    (send_message st env).1.send_lock = st.send_lock := by
  constructor
  · intro h
    unfold send_message
    split
    · rfl
    · rw [if_neg (by simp [h])]
  · unfold send_message
    repeat' split
    all_goals simp_all

/-- C3 (witness): with the lock held and the throttle satisfied (100000 ms
elapsed), a concurrent call returns `None`, transmits nothing and changes
nothing; and a lock-free call on the same configuration ends with the
lock free. -/
theorem C3_send_lock_witness :
    send_message { LoRaModule_init 0 true 5 [107] with send_lock := true }
        { now := 100000, serialized := [104], txErr := none,
          now2 := 100001, toa := 7 }
      = ({ LoRaModule_init 0 true 5 [107] with send_lock := true }, none, []) :=
  (C3_send_lock _ _).1 rfl

/-- C10: the very first send after construction is rate-limited against
the construction tick.  `__init__` sets `self._last_send` to the
construction-time `ticks_ms()` rather than to a "never sent" sentinel, so
any `send_message` call less than the rate-limit interval after
construction returns `None` and transmits nothing, although no message
has ever been sent. -/
theorem C10_first_send_rate_limited (t0 : Nat) (ok : Bool) (rl : Nat)
    (sec : List Nat) (env : SendEnv)
    (h : ticksDiff env.now t0 < rl * 1000) :
    send_message (LoRaModule_init t0 ok rl sec) env
      = (LoRaModule_init t0 ok rl sec, none, []) := by
  simp [send_message, LoRaModule_init, h]

/-- C10 (witness): module constructed at tick 1000 with the default 5 s
rate limit; a first-ever send attempted at tick 5000 (4000 ms later) is
rejected. -/
theorem C10_first_send_rate_limited_witness :
    send_message (LoRaModule_init 1000 true 5 [107])
        { now := 5000, serialized := [104], txErr := none,
          now2 := 5001, toa := 7 }
      = (LoRaModule_init 1000 true 5 [107], none, []) :=
  C10_first_send_rate_limited 1000 true 5 [107] _ (by decide)

/-! ### `event.py`: the dispatcher

A handler is invoked on the current world state `σ` and either returns a
plain value, returns a coroutine object (which `emit` schedules as a
fire-and-forget task and records in `active_tasks`), or raises an
exception after having performed its side effects. -/

/-- Result of calling a subscribed handler. -/
inductive HandlerResult (σ : Type) where
  | value (w : σ)
  | coroutine (w : σ) (task : Nat)
  | raises (w : σ) (e : PyErr)

/-- A subscribed handler for one event name. -/
def Handler (σ : Type) : Type := σ → HandlerResult σ

/-- The dispatcher state visible during one `emit`: the world the handlers
act on, `self.active_tasks` (task ids), and the error log written by the
`except` clause. -/
structure BusState (σ : Type) where
  world : σ
  active_tasks : List Nat
  log : List PyErr

/-- The `for handler in self.subscribers[event_name]` loop of
`EventBus.emit`: each handler is invoked inside `try`; a coroutine result
is scheduled and tracked; a raised exception is caught, logged, and the
loop continues with the next handler.  Returns the final state and one
trace entry per invoked handler (`true` = that handler raised). -/
def emitLoop {σ : Type} : List (Handler σ) → BusState σ → BusState σ × List Bool
  | [], st => (st, [])
  | h :: hs, st =>
    match h st.world with
    | .value w =>
      let r := emitLoop hs { st with world := w }
      (r.1, false :: r.2)
    | .coroutine w t =>
      let r := emitLoop hs
        { st with world := w, active_tasks := st.active_tasks ++ [t] }
      (r.1, false :: r.2)
    | .raises w e =>
      let r := emitLoop hs { st with world := w, log := st.log ++ [e] }
      (r.1, true :: r.2)

/-- `EventBus.emit` for one event name, as seen by the publisher: the
result is `Except`-typed so that an uncaught exception in the loop would
surface as `.error`; the per-handler `try`/`except Exception` catches
every handler exception, so the publisher always gets `.ok`. -/
def emit {σ : Type} (handlers : List (Handler σ)) (st : BusState σ) :
    Except PyErr (BusState σ × List Bool) :=
  .ok (emitLoop handlers st)

lemma emitLoop_append {σ : Type} (xs ys : List (Handler σ)) (st : BusState σ) :
    emitLoop (xs ++ ys) st
      = ((emitLoop ys (emitLoop xs st).1).1,
          (emitLoop xs st).2 ++ (emitLoop ys (emitLoop xs st).1).2) := by
  induction xs generalizing st with
  | nil => simp [emitLoop]
  | cons h hs ih =>
    cases hr : h st.world <;> simp [emitLoop, hr, ih]

lemma emitLoop_trace_length {σ : Type} (hs : List (Handler σ)) (st : BusState σ) :
    (emitLoop hs st).2.length = hs.length := by
  induction hs generalizing st with
  | nil => rfl
  | cons h hs ih =>
    cases hr : h st.world <;> simp [emitLoop, hr, ih]

/-! ### Claim C4 -/

/-- C4: handler isolation.  For a subscriber list `p ++ h :: q` where `h`
always raises (`e` after side effect `f`), `emit` (1) returns normally to
the publisher (`.ok`, never an exception), (2) catches and logs `h`'s
exception (the `[e]` appended to the log), and (3) still invokes every
later handler: the final state and trace are exactly those of running all
of `q` from the post-failure state, and the trace has one entry per
registered handler. -/
theorem C4_handler_isolation {σ : Type} (p q : List (Handler σ)) (h : Handler σ)
    (f : σ → σ) (e : PyErr) (st : BusState σ)
    (hfail : ∀ w, h w = .raises (f w) e) :
    (emit (p ++ h :: q) st
      = .ok ((emitLoop q { (emitLoop p st).1 with
            world := f (emitLoop p st).1.world,
            log := (emitLoop p st).1.log ++ [e] }).1,
          (emitLoop p st).2 ++ true :: (emitLoop q { (emitLoop p st).1 with
            world := f (emitLoop p st).1.world,
            log := (emitLoop p st).1.log ++ [e] }).2)) ∧
    (emitLoop (p ++ h :: q) st).2.length = p.length + 1 + q.length := by
  constructor
  · rw [emit, emitLoop_append]
    rw [show emitLoop (h :: q) (emitLoop p st).1
        = ((emitLoop q { (emitLoop p st).1 with
              world := f (emitLoop p st).1.world,
              log := (emitLoop p st).1.log ++ [e] }).1,
            true :: (emitLoop q { (emitLoop p st).1 with
              world := f (emitLoop p st).1.world,
              log := (emitLoop p st).1.log ++ [e] }).2) from by
      rw [emitLoop, hfail]]
  · rw [emitLoop_trace_length]
    simp
    omega

/-- C4 (witness): with no preceding handlers, a first handler that always
raises `TypeError`, and a second handler that appends `7` to the world
list, `emit` returns `.ok`: the exception is logged and the second handler
has run (world `[7]`), with trace `[raised, ok]`. -/
theorem C4_handler_isolation_witness :
    emit [fun w => .raises w .typeError,
        fun (w : List Nat) => .value (w ++ [7])]
      { world := [], active_tasks := [], log := [] }
      = .ok ({ world := [7], active_tasks := [], log := [.typeError] },
          [true, false]) :=
  (C4_handler_isolation [] [fun (w : List Nat) => .value (w ++ [7])]
    (fun w => .raises w .typeError) (fun w => w) .typeError
    { world := [], active_tasks := [], log := [] } (fun _ => rfl)).1

/-! ### `tracking.py`: the tracked-peer store

Python dictionaries are modelled as insertion-ordered association lists
with unique keys: assignment replaces in place or appends, lookup takes
the first match, `pop` removes the entry. -/

/-- JSON values (`ujson` results and the GPS field values). -/
inductive JVal where
  | null
  | bool (b : Bool)
  | num (n : Int)
  | str (s : String)
  | arr (xs : List JVal)
  | obj (fields : List (String × JVal))

/-- The hashable JSON values: only these can be Python `dict` keys
(lists and dicts raise `TypeError: unhashable type` when used as keys). -/
inductive JKey where
  | null
  | bool (b : Bool)
  | num (n : Int)
  | str (s : String)
  deriving DecidableEq, Repr

/-- The dict key for a JSON value: `none` for the unhashable shapes. -/
def JVal.toKey : JVal → Option JKey
  | .null => some .null
  | .bool b => some (.bool b)
  | .num n => some (.num n)
  | .str s => some (.str s)
  | .arr _ => none
  | .obj _ => none

/-- `d[k] = v`: replace the first binding of `k` or append a new one. -/
def dset {κ V : Type} [DecidableEq κ] : List (κ × V) → κ → V → List (κ × V)
  | [], k, v => [(k, v)]
  | (k', v') :: rest, k, v =>
    if k' = k then (k, v) :: rest else (k', v') :: dset rest k v

/-- `d.get(k)` / `k in d`: first binding of `k`, if any. -/
def dget {κ V : Type} [DecidableEq κ] : List (κ × V) → κ → Option V
  | [], _ => none
  | (k', v') :: rest, k => if k' = k then some v' else dget rest k

/-- `d.pop(k, None)`, the removal part: drop the first binding of `k`. -/
def ddel {κ V : Type} [DecidableEq κ] : List (κ × V) → κ → List (κ × V)
  | [], _ => []
  | (k', v') :: rest, k =>
    if k' = k then rest else (k', v') :: ddel rest k

/-- One tracked remote device (`class Rover`, `__slots__`).  Field values
come from decoded JSON, so they are `JVal`s; `last_track` is the
`ticks_ms()` stamp taken in `__init__`/`update`. -/
structure Rover where
  id : JVal
  gps_data : List (String × JVal)
  last_rssi : JVal
  last_track : Nat
  last_toa : JVal

/-- The class-level registry `Rover._rovers`, keyed by `Rover.id` (which
must be hashable for the `_rovers[self.id] = self` write to succeed). -/
def RoverStore : Type := List (JKey × Rover)

/-- The `for key in tracked_data` loop shared by `__init__`: every key
except `'id'` is written into `gps_data` in iteration (= insertion)
order. -/
def gpsFold (gd : List (String × JVal)) (data : List (String × JVal)) :
    List (String × JVal) :=
  data.foldl (fun gd kv => if kv.1 ≠ "id" then dset gd kv.1 kv.2 else gd) gd

/-- `Rover.__init__(tracked_data, last_rssi, last_toa)`: build `gps_data`
from every non-`'id'` key, set `self.id` from the `'id'` key, stamp
`last_track := ticks_ms()`, and register the instance in `_rovers`.
If `tracked_data` has no `'id'` key, `self.id` is never assigned and
reading it for the registry write raises `AttributeError`; an unhashable
`id` value makes the registry write raise `TypeError`. -/
def roverInit (tracked_data : List (String × JVal)) (last_rssi last_toa : JVal)
    (now : Nat) (rovers : RoverStore) : Except PyErr (Rover × RoverStore) :=
  match dget tracked_data "id" with
  | none => .error .attributeError
  | some idv =>
    match idv.toKey with
    | none => .error .typeError
    | some key =>
      let r : Rover :=
        { id := idv,
          gps_data := gpsFold [] tracked_data,
          last_rssi := last_rssi,
          last_track := now,
          last_toa := last_toa }
      .ok (r, dset rovers key r)

/-- `Rover.update(new_rover_data, last_rssi, last_toa)`: write every
non-`'id'` key of the new message over the existing `gps_data` (keys
absent from the message are not touched), then refresh `last_rssi`,
`last_track` and `last_toa`. -/
def Rover.update (r : Rover) (new_rover_data : List (String × JVal))
    (last_rssi last_toa : JVal) (now : Nat) : Rover :=
  { r with
      gps_data := gpsFold r.gps_data new_rover_data,
      last_rssi := last_rssi,
      last_track := now,
      last_toa := last_toa }

/-- The Python return value of `untrack_rover` (`None` or a boolean). -/
inductive PyRet where
  | none
  | bool (b : Bool)
  deriving DecidableEq, Repr

/-- Outcome of `Rover.untrack_rover`: the registry afterwards, the popped
entry, which `print` branch ran (`logRemoved`), and the Python return
value. -/
structure UntrackResult where
  rovers : RoverStore
  popped : Option Rover
  logRemoved : Bool
  retval : PyRet

/-- `Rover.untrack_rover(rover_id)`: `result = cls._rovers.pop(rover_id,
None)`, print "Removed ..." when `result` is not `None` and "Failed to
remove ..." otherwise.  The function body has no `return` statement, so
it returns `None` on both paths. -/
def untrack_rover (rovers : RoverStore) (rover_id : JKey) : UntrackResult :=
  let result := dget rovers rover_id
  { rovers := ddel rovers rover_id, popped := result,
    logRemoved := result.isSome, retval := PyRet.none }

/-- `data[k]` on a JSON value: `KeyError` for a missing key on an object,
`TypeError` when subscripting a non-object with a string key. -/
def jGetItem (j : JVal) (k : String) : Except PyErr JVal :=
  match j with
  | .obj fields =>
    match dget fields k with
    | some v => .ok v
    | none => .error .keyError
  | _ => .error .typeError

/-- One iteration of the `for data in rovers_data` loop of `load_rovers`:
build the `tracked_data` literal `{'id': data['id'], 'lat':
data['gps_data']['lat'], 'lon': ..., 'ut': ...}` and the keyword
arguments, then construct the `Rover` (which registers itself).  Any
subscript failure raises out of the iteration. -/
def processRecord (rovers : RoverStore) (now : Nat) (data : JVal) :
    Except PyErr RoverStore := do
  let idv ← jGetItem data "id"
  let gd ← jGetItem data "gps_data"
  let lat ← jGetItem gd "lat"
  let lon ← jGetItem gd "lon"
  let ut ← jGetItem gd "ut"
  let rssi ← jGetItem data "last_rssi"
  let toa ← jGetItem data "last_toa"
  let tracked := [("id", idv), ("lat", lat), ("lon", lon), ("ut", ut)]
  match roverInit tracked rssi toa now rovers with
  | .error e => .error e
  | .ok (_, rovers2) => .ok rovers2

/-- The record loop of `load_rovers`: an exception in any iteration
aborts the loop (it is caught by the enclosing `except`), leaving the
registry as accumulated so far. -/
def loadLoop (rovers : RoverStore) (now : Nat) : List JVal → RoverStore
  | [] => rovers
  | d :: rest =>
    match processRecord rovers now d with
    | .ok rovers2 => loadLoop rovers2 now rest
    | .error _ => rovers

/-- `load_rovers()`.  `raw` models `open(rover_file)` + `ujson.load(f)`:
`.error .osError` for a missing or unreadable file, `.error .valueError`
for syntactically invalid JSON, `.ok j` for the parsed value.  The
`except (OSError, ValueError)` and `except Exception` clauses catch every
exception, so the caller always receives `.ok`: the registry untouched on
a read/parse failure, the loop result otherwise.  Iterating a non-list
value either raises `TypeError` immediately or (for `dict`/`str`) yields
non-object items whose first subscript raises, aborting the loop with the
registry untouched, so every non-array shape leaves the registry
unchanged. -/
def load_rovers (raw : Except PyErr JVal) (rovers : RoverStore) (now : Nat) :
    Except PyErr RoverStore :=
  match raw with
  | .error _ => .ok rovers
  | .ok j =>
    match j with
    | .arr items => .ok (loadLoop rovers now items)
    | _ => .ok rovers

/-! ### Dictionary lemmas -/

lemma dget_dset_self {κ V : Type} [DecidableEq κ] (d : List (κ × V)) (k : κ) (v : V) :
    dget (dset d k v) k = some v := by
  induction d with
  | nil => simp [dset, dget]
  | cons kv rest ih =>
    obtain ⟨k', v'⟩ := kv
    by_cases h : k' = k
    · simp [dset, dget, h]
    · simp [dset, dget, h, ih]

lemma dget_dset_ne {κ V : Type} [DecidableEq κ] (d : List (κ × V)) (k k' : κ) (v : V)
    (h : k ≠ k') : dget (dset d k v) k' = dget d k' := by
  induction d with
  | nil => simp [dset, dget, h]
  | cons kv rest ih =>
    obtain ⟨k1, v1⟩ := kv
    by_cases h1 : k1 = k
    · subst h1
      simp [dset, dget, h]
    · simp [dset, dget, h1, ih]

lemma dget_eq_none_of_not_mem {κ V : Type} [DecidableEq κ] (d : List (κ × V)) (k : κ)
    (h : k ∉ d.map Prod.fst) : dget d k = none := by
  induction d with
  | nil => rfl
  | cons kv rest ih =>
    obtain ⟨k1, v1⟩ := kv
    simp only [List.map_cons, List.mem_cons] at h
    push_neg at h
    have h1 : ¬ (k1 = k) := fun hh => h.1 hh.symm
    simp [dget, h1, ih h.2]

lemma ddel_of_dget_none {κ V : Type} [DecidableEq κ] (d : List (κ × V)) (k : κ)
    (h : dget d k = none) : ddel d k = d := by
  induction d with
  | nil => rfl
  | cons kv rest ih =>
    obtain ⟨k1, v1⟩ := kv
    have h1 : ¬ (k1 = k) := by
      intro hh
      simp [dget, hh] at h
    have h2 : dget rest k = none := by simpa [dget, h1] using h
    simp [ddel, h1, ih h2]

lemma gpsFold_absent (data : List (String × JVal)) (gd : List (String × JVal))
    (k : String) (hk : dget data k = none) :
    dget (gpsFold gd data) k = dget gd k := by
  induction data generalizing gd with
  | nil => rfl
  | cons kv rest ih =>
    obtain ⟨k1, v1⟩ := kv
    have h1 : ¬ (k1 = k) := by
      intro hh
      simp [dget, hh] at hk
    have h2 : dget rest k = none := by simpa [dget, h1] using hk
    by_cases hid : k1 = "id"
    · simp [gpsFold, List.foldl_cons, hid] at *
      exact ih gd h2
    · simp only [gpsFold, List.foldl_cons, if_pos (by simpa using hid)] at *
      rw [ih (dset gd k1 v1) h2, dget_dset_ne _ _ _ _ h1]

lemma gpsFold_present (data : List (String × JVal)) (gd : List (String × JVal))
    (k : String) (v : JVal) (hnodup : (data.map Prod.fst).Nodup)
    (hk : dget data k = some v) (hid : k ≠ "id") :
    dget (gpsFold gd data) k = some v := by
  induction data generalizing gd with
  | nil => simp [dget] at hk
  | cons kv rest ih =>
    obtain ⟨k1, v1⟩ := kv
    simp only [List.map_cons, List.nodup_cons] at hnodup
    have hstep : gpsFold gd ((k1, v1) :: rest)
        = gpsFold (if k1 ≠ "id" then dset gd k1 v1 else gd) rest := by
      simp [gpsFold, List.foldl_cons]
    by_cases h1 : k1 = k
    · subst h1
      have hv : v1 = v := by simpa [dget] using hk
      subst hv
      have hrest : dget rest k1 = none :=
        dget_eq_none_of_not_mem _ _ hnodup.1
      rw [hstep, if_pos hid]
      rw [gpsFold_absent rest _ k1 hrest, dget_dset_self]
    · have hrest : dget rest k = some v := by simpa [dget, h1] using hk
      rw [hstep]
      by_cases hid1 : k1 = "id"
      · rw [if_neg (by simp [hid1])]
        exact ih _ hnodup.2 hrest
      · rw [if_pos hid1]
        exact ih _ hnodup.2 hrest

/-! ### Claim C5 -/

/-- C5: non-destructive peer merge.  `Rover.update` (1) refreshes
`last_seen` (`last_track := ticks_ms()`) and the rssi/toa fields, (2)
never touches `id`, (3) leaves every `gps_data` key absent from the new
message at its previous value, and (4) overwrites exactly the keys
present in the new message (other than `'id'`) with their new values. -/
theorem C5_update_merge (r : Rover) (new : List (String × JVal))
    (rssi toa : JVal) (now : Nat) :
    ((r.update new rssi toa now).last_track = now) ∧
    ((r.update new rssi toa now).last_rssi = rssi) ∧
    ((r.update new rssi toa now).last_toa = toa) ∧
    ((r.update new rssi toa now).id = r.id) ∧
    (∀ k, dget new k = none →
      dget (r.update new rssi toa now).gps_data k = dget r.gps_data k) ∧
    (∀ k v, (new.map Prod.fst).Nodup → k ≠ "id" → dget new k = some v →
      dget (r.update new rssi toa now).gps_data k = some v) := by
  refine ⟨rfl, rfl, rfl, rfl, ?_, ?_⟩
  · intro k hk
    exact gpsFold_absent new r.gps_data k hk
  · intro k v hnodup hid hk
    exact gpsFold_present new r.gps_data k v hnodup hk hid

/-- C5 (witness): the spec's example.  A Peer whose prior state carries
`lat = 10, lon = 20` updated with a message carrying only `{sat: 7}`
keeps `lat = 10` and `lon = 20`, gains `sat = 7`, and has `last_seen`
refreshed to the update tick. -/
theorem C5_update_merge_witness :
    dget ((Rover.update
        { id := .str "A", gps_data := [("lat", JVal.num 10), ("lon", JVal.num 20)],
          last_rssi := JVal.num (-50), last_track := 1000, last_toa := JVal.num 100 }
        [("sat", JVal.num 7)] (JVal.num (-48)) (JVal.num 101) 2000).gps_data)
      "lat" = some (JVal.num 10) ∧
    dget ((Rover.update
        { id := .str "A", gps_data := [("lat", JVal.num 10), ("lon", JVal.num 20)],
          last_rssi := JVal.num (-50), last_track := 1000, last_toa := JVal.num 100 }
        [("sat", JVal.num 7)] (JVal.num (-48)) (JVal.num 101) 2000).gps_data)
      "lon" = some (JVal.num 20) ∧
    dget ((Rover.update
        { id := .str "A", gps_data := [("lat", JVal.num 10), ("lon", JVal.num 20)],
          last_rssi := JVal.num (-50), last_track := 1000, last_toa := JVal.num 100 }
        [("sat", JVal.num 7)] (JVal.num (-48)) (JVal.num 101) 2000).gps_data)
      "sat" = some (JVal.num 7) ∧
    (Rover.update
        { id := .str "A", gps_data := [("lat", JVal.num 10), ("lon", JVal.num 20)],
          last_rssi := JVal.num (-50), last_track := 1000, last_toa := JVal.num 100 }
        [("sat", JVal.num 7)] (JVal.num (-48)) (JVal.num 101) 2000).last_track
      = 2000 :=
  ⟨(C5_update_merge _ _ _ _ _).2.2.2.2.1 "lat" rfl,
    (C5_update_merge _ _ _ _ _).2.2.2.2.1 "lon" rfl,
    (C5_update_merge _ _ _ _ _).2.2.2.2.2 "sat" (JVal.num 7)
      (by simp) (by simp) rfl,
    (C5_update_merge _ _ _ _ _).1⟩

/-! ### Claim C7 -/

/-- C7: persistence load tolerance.  For a missing or unreadable record
(`OSError`), a syntactically malformed record (`ValueError` from
`ujson.load`), or indeed any raised load error, `load_rovers` returns
normally with the registry untouched — in particular an initially empty
store stays empty, no Peer is added — and for every possible input,
error or parsed value, `load_rovers` returns `.ok`: no exception ever
reaches the caller. -/
theorem C7_load_tolerance (rovers : RoverStore) (now : Nat) :
    (∀ e : PyErr, load_rovers (.error e) rovers now = .ok rovers) ∧
    (∀ e : PyErr, load_rovers (.error e) [] now = .ok ([] : RoverStore)) ∧
    (∀ raw : Except PyErr JVal, ∃ s, load_rovers raw rovers now = .ok s) := by
  refine ⟨fun e => rfl, fun e => rfl, ?_⟩
  intro raw
  match raw with
  | .error e => exact ⟨rovers, rfl⟩
  | .ok (.null) => exact ⟨rovers, rfl⟩
  | .ok (.bool b) => exact ⟨rovers, rfl⟩
  | .ok (.num n) => exact ⟨rovers, rfl⟩
  | .ok (.str s) => exact ⟨rovers, rfl⟩
  | .ok (.arr items) => exact ⟨loadLoop rovers now items, rfl⟩
  | .ok (.obj fields) => exact ⟨rovers, rfl⟩

/-! ### Claim C9 -/

/-- A concrete tracked peer used in the C9 statements. -/
def roverA : Rover :=
  { id := .str "A", gps_data := [], last_rssi := JVal.num 0,
    last_track := 0, last_toa := JVal.num 0 }

/-- C9 (counterexample): `untrack_rover` on a store containing the id
does remove the Peer, but its Python return value is `None` — not `True`
as the claim states (the function body has no `return` statement; presence
is reported only through the log branch). -/
theorem C9_remove_counterexample :
    (dget [(JKey.str "A", roverA)] (JKey.str "A")).isSome = true ∧
    (untrack_rover [(JKey.str "A", roverA)] (JKey.str "A")).rovers = [] ∧
    (untrack_rover [(JKey.str "A", roverA)] (JKey.str "A")).retval = PyRet.none ∧
    (untrack_rover [(JKey.str "A", roverA)] (JKey.str "A")).retval ≠ PyRet.bool true :=
  ⟨rfl, rfl, rfl, fun h => by cases h⟩

/-- C9 (amended): `untrack_rover` removes the Peer with the given id when
present and leaves the store unchanged when absent, and the two cases are
distinguished by which log line is printed — but the function returns
`None` in both cases (never a boolean). -/
theorem C9_untrack (rovers : RoverStore) (rid : JKey) :
    ((untrack_rover rovers rid).retval = PyRet.none) ∧
    (∀ b, (untrack_rover rovers rid).retval ≠ PyRet.bool b) ∧
    ((dget rovers rid).isSome = true →
      (untrack_rover rovers rid).rovers = ddel rovers rid ∧
      (untrack_rover rovers rid).logRemoved = true) ∧
    (dget rovers rid = none →
      (untrack_rover rovers rid).rovers = rovers ∧
      (untrack_rover rovers rid).logRemoved = false) := by
  refine ⟨rfl, ?_, ?_, ?_⟩
  · intro b h
    cases h
  · intro hsome
    exact ⟨rfl, by simp [untrack_rover, hsome]⟩
  · intro hnone
    refine ⟨?_, by simp [untrack_rover, hnone]⟩
    simp only [untrack_rover]
    exact ddel_of_dget_none rovers rid hnone

/-- C9 (witness): the amended behavior at concrete stores — removal of a
present id (with `None` returned), and a no-op for an absent id. -/
theorem C9_untrack_witness :
    ((untrack_rover [(JKey.str "A", roverA)] (JKey.str "A")).rovers
        = ddel [(JKey.str "A", roverA)] (JKey.str "A") ∧
      (untrack_rover [(JKey.str "A", roverA)] (JKey.str "A")).logRemoved = true) ∧
    ((untrack_rover [(JKey.str "A", roverA)] (JKey.str "B")).rovers
        = [(JKey.str "A", roverA)] ∧
      (untrack_rover [(JKey.str "A", roverA)] (JKey.str "B")).logRemoved = false) :=
  ⟨(C9_untrack [(JKey.str "A", roverA)] (JKey.str "A")).2.2.1 rfl,
    (C9_untrack [(JKey.str "A", roverA)] (JKey.str "B")).2.2.2 rfl⟩

/-! ### `device.py`: the button-press classifier

`Device.check_button` polls the pin every 30 ms.  One press cycle is
modelled relative to `start` (the tick captured after the 30 ms debounce
re-check): the button reads pressed at every sample tick `t < d` and
released from `t = d` on, where `d ≥ 1` is the held duration, and each
`asyncio.sleep_ms(30)` advances the clock by exactly 30 ms (the
cooperative ideal; `ticks_diff` distances here are far below the wrap
period, so plain naturals are exact). -/

def _BUTTON_BUMP : Nat := 250
def _BUTTON_SHORT : Nat := 1000
def _BUTTON_LONG : Nat := 4000
def _BUTTON_SLEEP : Nat := 5000

/-- The event published for one press cycle (at most one of the three;
spec names: `bump` = `input.tap`, `long` = `input.hold`, `sleep` =
`input.sleep`). -/
inductive PressOutcome where
  | sleep
  | bump
  | long
  | none
  deriving DecidableEq, Repr

/-- The inner `while self.button.value() == _PRESSED` loop, entered at
sample tick `t`.  While pressed, sleep 30 ms and check
`elapsed >= _BUTTON_SLEEP` (publishing `device.sleep` and abandoning the
press when it holds); once released, the re-computed `elapsed` classifies
the press: `< _BUTTON_BUMP` publishes `button.bump`, strictly between
`_BUTTON_SHORT` and `_BUTTON_LONG` publishes `button.long`, anything
else publishes nothing. -/
def check_button_loop (d t : Nat) : PressOutcome :=
  if h : t < d then
    if _BUTTON_SLEEP ≤ t + 30 then .sleep
    else check_button_loop d (t + 30)
  else
    if t < _BUTTON_BUMP then .bump
    else if _BUTTON_SHORT < t ∧ t < _BUTTON_LONG then .long
    else .none
  termination_by d - t
  decreasing_by omega

/-- One full press cycle of duration `d`, entered at `t = 0` (the tick
`start` was taken). -/
def check_button_press (d : Nat) : PressOutcome :=
  check_button_loop d 0

lemma cbl_release {d t : Nat} (h : d ≤ t) :
    check_button_loop d t =
      if t < _BUTTON_BUMP then .bump
      else if _BUTTON_SHORT < t ∧ t < _BUTTON_LONG then .long
      else .none := by
  rw [check_button_loop]
  rw [dif_neg (by omega)]

lemma cbl_step {d t : Nat} (h : t < d) (h2 : t + 30 < _BUTTON_SLEEP) :
    check_button_loop d t = check_button_loop d (t + 30) := by
  rw [check_button_loop]
  rw [dif_pos h, if_neg (by omega)]

lemma cbl_sleep_now {d t : Nat} (h : t < d) (h2 : _BUTTON_SLEEP ≤ t + 30) :
    check_button_loop d t = .sleep := by
  rw [check_button_loop]
  rw [dif_pos h, if_pos h2]

lemma cbl_bump (d : Nat) (hd : d ≤ 240) :
    ∀ m t, d ≤ t + 30 * m → 30 ∣ t → t ≤ 240 → check_button_loop d t = .bump := by
  intro m
  induction m with
  | zero =>
    intro t hfuel hdvd ht
    rw [cbl_release (by omega)]
    rw [if_pos (by simp only [_BUTTON_BUMP]; omega)]
  | succ m ih =>
    intro t hfuel hdvd ht
    by_cases hlt : t < d
    · rw [cbl_step hlt (by simp only [_BUTTON_SLEEP]; omega)]
      exact ih (t + 30) (by omega) (by omega) (by omega)
    · rw [cbl_release (by omega)]
      rw [if_pos (by simp only [_BUTTON_BUMP]; omega)]

lemma cbl_long (d : Nat) (hd1 : 990 < d) (hd2 : d ≤ 3990) :
    ∀ m t, d ≤ t + 30 * m → 30 ∣ t → t ≤ 3990 → check_button_loop d t = .long := by
  intro m
  induction m with
  | zero =>
    intro t hfuel hdvd ht
    rw [cbl_release (by omega)]
    rw [if_neg (by simp only [_BUTTON_BUMP]; omega),
      if_pos ⟨by simp only [_BUTTON_SHORT]; omega, by simp only [_BUTTON_LONG]; omega⟩]
  | succ m ih =>
    intro t hfuel hdvd ht
    by_cases hlt : t < d
    · rw [cbl_step hlt (by simp only [_BUTTON_SLEEP]; omega)]
      exact ih (t + 30) (by omega) (by omega) (by omega)
    · rw [cbl_release (by omega)]
      rw [if_neg (by simp only [_BUTTON_BUMP]; omega),
        if_pos ⟨by simp only [_BUTTON_SHORT]; omega, by simp only [_BUTTON_LONG]; omega⟩]

lemma cbl_sleep (d : Nat) (hd : 5000 < d) :
    ∀ m t, 4980 ≤ t + 30 * m → 30 ∣ t → t ≤ 4980 → check_button_loop d t = .sleep := by
  intro m
  induction m with
  | zero =>
    intro t hfuel hdvd ht
    exact cbl_sleep_now (by omega) (by simp only [_BUTTON_SLEEP]; omega)
  | succ m ih =>
    intro t hfuel hdvd ht
    by_cases h48 : t = 4980
    · exact cbl_sleep_now (by omega) (by simp only [_BUTTON_SLEEP]; omega)
    · rw [cbl_step (by omega) (by simp only [_BUTTON_SLEEP]; omega)]
      exact ih (t + 30) (by omega) (by omega) (by omega)

/-! ### Claim C8 -/

/-- C8: input classification boundaries.  A press of duration `d ≥ 1` ms
(sampled every 30 ms): released with every possible release-observation
tick below the 250 ms bump threshold (`d ≤ 240`, e.g. the claim's 100 ms)
publishes exactly `button.bump` (the spec's tap); released with the
observation tick strictly inside the 1000–4000 ms hold band
(`990 < d ≤ 3990`, e.g. the claim's 2000 ms) publishes exactly
`button.long` (the spec's hold); held continuously past the 5000 ms sleep
threshold publishes exactly `device.sleep` — the press cycle is
abandoned while still pressed, so no tap or hold event follows for that
press. -/
theorem C8_button_classification (d : Nat) :
    (0 < d → d ≤ 240 → check_button_press d = .bump) ∧
    (990 < d → d ≤ 3990 → check_button_press d = .long) ∧
    (5000 < d → check_button_press d = .sleep) := by
  refine ⟨?_, ?_, ?_⟩
  · intro h1 h2
    exact cbl_bump d h2 8 0 (by omega) (by omega) (by omega)
  · intro h1 h2
    exact cbl_long d h1 h2 133 0 (by omega) (by omega) (by omega)
  · intro h
    exact cbl_sleep d h 166 0 (by omega) (by omega) (by omega)

/-- C8 (witness): the claim's example durations — a 100 ms press taps, a
2000 ms press holds, a 6000 ms continuous hold sleeps (and is neither a
tap nor a hold). -/
theorem C8_button_classification_witness :
    check_button_press 100 = .bump ∧
    check_button_press 2000 = .long ∧
    check_button_press 6000 = .sleep :=
  ⟨(C8_button_classification 100).1 (by decide) (by decide),
    (C8_button_classification 2000).2.1 (by decide) (by decide),
    (C8_button_classification 6000).2.2 (by decide)⟩

end Daisyschain
